import Mathlib

/-!
# honcheonui-softlayer: the provider plugin's field mappings

A shallow embedding of `softlayer.go`: the helpers `slInt` and `slString`, the
loop bodies of `GetResources`, `GetStatuses` and `getTickets`, and the three
operations themselves over an explicit description of the remote service.

Conventions of the embedding.

* A Go pointer field (`*int`, `*string`, `*Ticket_Status`, ...) is an `Option`;
  `nil` is `none`.  Reading a field through a `nil` pointer (`d.Status.Name`
  with `d.Status == nil`) is a run-time panic; the embedding makes it the
  `Except.error` outcome of `deref`.
* A Go slice is the list of its elements; a `nil` slice and a slice of length
  zero are both `[]`.
* A Go `int` is an `Int`.  The code performs no arithmetic on these values, it
  only prints them with `strconv.Itoa`, so no wrap-around can occur.
* A Go `(result, error)` pair is a Lean pair whose second component is an
  `Option Err`; `none` is the `nil` error.
* A Go map literal is the list of its key and value pairs, in source order.
-/

namespace Softlayer

/-! ## Run-time failures and library values -/

/-- The run-time panics the modelled code can raise. -/
inductive Panic where
  /-- A field read or an explicit `*p` through a `nil` pointer. -/
  | nilPointerDereference
  /-- The method `time.Time.In` called with a `nil` location. -/
  | missingLocation
  deriving DecidableEq, Repr

/-- A Go `error` value, identified by its message. -/
structure Err where
  msg : String
  deriving DecidableEq, Repr

/-- A `time.Time` instant.  The modelled code copies instants and hands them to
the `time` package; it never inspects them. -/
structure Time where
  sec : Int
  nsec : Nat
  deriving DecidableEq, Repr

/-- A `*time.Location` that is not `nil`, identified by its name. -/
structure Location where
  name : String
  deriving DecidableEq, Repr

/-- A `uuid.UUID`: sixteen bytes. -/
structure UUID where
  bytes : List Nat
  deriving DecidableEq, Repr

/-- The zero value of `uuid.UUID`. -/
def UUID.Nil : UUID := ⟨List.replicate 16 0⟩

/-- Reading through a pointer: the pointee, or a panic when it is `nil`. -/
def deref {α : Type} : Option α → Except Panic α
  | some a => .ok a
  | none => .error .nilPointerDereference

/-- The function `strconv.Itoa`: the decimal text of an integer, with a leading
`-` for a negative one. -/
def Itoa : Int → String
  | .ofNat n => Nat.repr n
  | .negSucc n => "-" ++ Nat.repr (n + 1)

/-! ## The records of the remote service (`softlayer-go/datatypes`)

Only the fields the plugin reads are kept. -/

structure User_Customer where
  Id : Option Int
  deriving DecidableEq, Repr

structure Tag where
  Name : Option String
  deriving DecidableEq, Repr

structure Tag_Reference where
  Tag : Option Tag
  deriving DecidableEq, Repr

/-- The `Location` record of a guest (`d.Location.PathString`). -/
structure GuestLocation where
  PathString : Option String
  deriving DecidableEq, Repr

structure Virtual_Guest_Status where
  Name : Option String
  deriving DecidableEq, Repr

structure Virtual_Guest_Power_State where
  Name : Option String
  deriving DecidableEq, Repr

structure Virtual_Guest where
  Id : Option Int := none
  Uuid : Option String := none
  AccountId : Option Int := none
  Hostname : Option String := none
  Domain : Option String := none
  Notes : Option String := none
  CreateDate : Option Time := none
  ModifyDate : Option Time := none
  PrimaryIpAddress : Option String := none
  Location : Option GuestLocation := none
  Status : Option Virtual_Guest_Status := none
  PowerState : Option Virtual_Guest_Power_State := none
  MaxCpu : Option Int := none
  MaxMemory : Option Int := none
  TagReferences : List Tag_Reference := []
  Users : List User_Customer := []
  deriving DecidableEq, Repr

structure Ticket_Group where
  Name : Option String
  deriving DecidableEq, Repr

structure Ticket_Subject where
  Name : Option String
  deriving DecidableEq, Repr

structure Ticket_Status where
  Name : Option String
  deriving DecidableEq, Repr

structure Ticket_Update where
  EditorType : Option String := none
  Entry : Option String := none
  deriving DecidableEq, Repr

structure Ticket_Attachment where
  AttachmentId : Option Int
  deriving DecidableEq, Repr

structure Ticket where
  Id : Option Int := none
  AccountId : Option Int := none
  AssignedUserId : Option Int := none
  Title : Option String := none
  Group : Option Ticket_Group := none
  Subject : Option Ticket_Subject := none
  Status : Option Ticket_Status := none
  FirstUpdate : Option Ticket_Update := none
  CreateDate : Option Time := none
  ModifyDate : Option Time := none
  AttachedResources : List Ticket_Attachment := []
  AttachedVirtualGuests : List Virtual_Guest := []
  deriving DecidableEq, Repr

/-! ## The records handed to the host (`honcheonui-spec`)

Each structure lists the fields the plugin assigns (the Go field `Type` is
written `Type_`); a field the code leaves
alone starts at the zero value of its Go type. -/

structure HoncheonuiResource where
  Provider : String := ""
  Type_ : String := ""
  OriginalID : String := ""
  Name : String := ""
  Notes : String := ""
  GroupID : String := ""
  ResourceCreatedAt : Time := ⟨0, 0⟩
  ResourceModifiedAt : Time := ⟨0, 0⟩
  IPAddress : String := ""
  Location : String := ""
  UUID : UUID := UUID.Nil
  IsConn : Bool := false
  IsOn : Bool := false
  Attributes : List (String × String) := []
  IntegerAttributes : List (String × Int) := []
  Tags : List String := []
  UserIDs : List String := []
  deriving DecidableEq, Repr

structure HoncheonuiStatus where
  OriginalID : String := ""
  IsConn : Bool := false
  IsOn : Bool := false
  deriving DecidableEq, Repr

structure HoncheonuiNotification where
  Provider : String := ""
  Type_ : String := ""
  OriginalID : String := ""
  GroupID : String := ""
  UserID : String := ""
  Title : String := ""
  Content : String := ""
  IssuedAt : Time := ⟨0, 0⟩
  ModifiedAt : Time := ⟨0, 0⟩
  IssuedBy : String := ""
  Category : String := ""
  IsOpen : Bool := false
  ResourceIDs : List String := []
  UserIDs : List String := []
  deriving DecidableEq, Repr

/-! ## Constants and helpers of `softlayer.go` -/

def ProviderName : String := "softlayer"

def APIEndPoint : String := "https://api.softlayer.com/rest/3.1"

/-- The source's `slInt`: the pointee, or `-1` for a `nil` pointer. -/
def slInt (i : Option Int) : Int :=
  match i with
  | some v => v
  | none => -1

/-- The source's `slString`: the pointee, or `""` for a `nil` pointer. -/
def slString (s : Option String) : String :=
  match s with
  | some v => v
  | none => ""

/-! ## The body of the loop in `getTickets` -/

/-- The loop `for _, r := range d.AttachedResources` of `getTickets`: one
`append` per attached resource. -/
def appendResourceIDs (ct : HoncheonuiNotification) :
    List Ticket_Attachment → HoncheonuiNotification
  | [] => ct
  | r :: rs =>
    appendResourceIDs
      { ct with ResourceIDs := ct.ResourceIDs ++ [Itoa (slInt r.AttachmentId)] } rs

/-- The inner loop `for _, u := range vsi.Users` of `getTickets`. -/
def appendGuestUserIDs (ct : HoncheonuiNotification) :
    List User_Customer → HoncheonuiNotification
  | [] => ct
  | u :: us =>
    appendGuestUserIDs { ct with UserIDs := ct.UserIDs ++ [Itoa (slInt u.Id)] } us

/-- The outer loop `for _, vsi := range d.AttachedVirtualGuests` of
`getTickets`.  The source wraps it in `if d.AttachedVirtualGuests != nil`; a
`nil` slice has no element, so the guard and the loop over `[]` coincide. -/
def appendUserIDs (ct : HoncheonuiNotification) :
    List Virtual_Guest → HoncheonuiNotification
  | [] => ct
  | vsi :: vs => appendUserIDs (appendGuestUserIDs ct vsi.Users) vs

/-- One iteration of the loop of `getTickets`: the record `ct` appended for the
raw ticket `d`, or the panic the iteration raises.  The statements follow the
source in order: the composite literal (whose operands read through
`d.FirstUpdate`, `d.CreateDate` and `d.ModifyDate`), the two category
assignments, the status test (which reads through `d.Status`) and the two
collecting loops. -/
def ticketNotification (d : Ticket) : Except Panic HoncheonuiNotification := do
  let firstUpdate ← deref d.FirstUpdate
  let createDate ← deref d.CreateDate
  let modifyDate ← deref d.ModifyDate
  let ct : HoncheonuiNotification :=
    { Provider := ProviderName
      Type_ := "ticket"
      OriginalID := Itoa (slInt d.Id)
      GroupID := Itoa (slInt d.AccountId)
      UserID := Itoa (slInt d.AssignedUserId)
      Title := slString d.Title
      Content := slString firstUpdate.Entry
      IssuedAt := createDate
      ModifiedAt := modifyDate
      IssuedBy := slString firstUpdate.EditorType }
  let ct :=
    match d.Group with
    | some g => { ct with Category := slString g.Name }
    | none => ct
  let ct :=
    match d.Subject with
    | some s => { ct with Category := ct.Category ++ ("/" ++ slString s.Name) }
    | none => ct
  let status ← deref d.Status
  let ct := if slString status.Name ≠ "Closed" then { ct with IsOpen := true } else ct
  let ct := appendResourceIDs ct d.AttachedResources
  let ct := appendUserIDs ct d.AttachedVirtualGuests
  return ct

/-! ## The bodies of the loops in `GetResources` and `GetStatuses` -/

/-- The loop `for _, t := range d.TagReferences` of `GetResources`; `t.Tag.Name`
reads through the pointer `t.Tag`. -/
def appendTags (cr : HoncheonuiResource) :
    List Tag_Reference → Except Panic HoncheonuiResource
  | [] => .ok cr
  | t :: ts => do
    let tag ← deref t.Tag
    appendTags { cr with Tags := cr.Tags ++ [slString tag.Name] } ts

/-- The loop `for _, u := range d.Users` of `GetResources`; the source reads
the identifier as `*u.Id`, without `slInt`. -/
def appendResourceUserIDs (cr : HoncheonuiResource) :
    List User_Customer → Except Panic HoncheonuiResource
  | [] => .ok cr
  | u :: us => do
    let id ← deref u.Id
    appendResourceUserIDs { cr with UserIDs := cr.UserIDs ++ [Itoa id] } us

/-- One iteration of the loop of `GetResources`: the record `cr` appended for
the guest `d`, or the panic the iteration raises.  `fromString` is
`uuid.FromString` with its error result dropped, as in `cr.UUID, _ = ...`. -/
def guestResource (fromString : String → UUID) (d : Virtual_Guest) :
    Except Panic HoncheonuiResource := do
  let createDate ← deref d.CreateDate
  let modifyDate ← deref d.ModifyDate
  let location ← deref d.Location
  let cr : HoncheonuiResource :=
    { Provider := ProviderName
      Type_ := "vm"
      OriginalID := Itoa (slInt d.Id)
      Name := slString d.Hostname ++ "." ++ slString d.Domain
      Notes := slString d.Notes
      GroupID := Itoa (slInt d.AccountId)
      ResourceCreatedAt := createDate
      ResourceModifiedAt := modifyDate
      IPAddress := slString d.PrimaryIpAddress
      Location := slString location.PathString }
  let cr :=
    match d.Uuid with
    | some u => { cr with UUID := fromString u }
    | none => cr
  let status ← deref d.Status
  let cr := if slString status.Name = "Active" then { cr with IsConn := true } else cr
  let powerState ← deref d.PowerState
  let cr := if slString powerState.Name = "Running" then { cr with IsOn := true } else cr
  let cr :=
    { cr with
      Attributes :=
        [("MaxCpu", Itoa (slInt d.MaxCpu)), ("MaxMemory", Itoa (slInt d.MaxMemory))] }
  let cr :=
    { cr with
      IntegerAttributes := [("MaxCpu", slInt d.MaxCpu), ("MaxMemory", slInt d.MaxMemory)] }
  let cr ← appendTags cr d.TagReferences
  let cr ← appendResourceUserIDs cr d.Users
  return cr

/-- One iteration of the loop of `GetStatuses`. -/
def guestStatus (d : Virtual_Guest) : Except Panic HoncheonuiStatus := do
  let crs : HoncheonuiStatus := { OriginalID := Itoa (slInt d.Id) }
  let status ← deref d.Status
  let crs := if slString status.Name = "Active" then { crs with IsConn := true } else crs
  let powerState ← deref d.PowerState
  let crs := if slString powerState.Name = "Running" then { crs with IsOn := true } else crs
  return crs

/-! ## The remote service and the three operations -/

/-- The operators of `softlayer-go/filter` that `getTickets` uses. -/
inductive FilterOp where
  | NotContains (s : String)
  | In (xs : List String)
  | DateAfter (s : String)
  deriving DecidableEq, Repr

/-- One `filter.Path(path).op(...)` term. -/
structure Filter where
  path : String
  op : FilterOp
  deriving DecidableEq, Repr

/-- What the plugin takes from outside: the two list queries of the account
service, each answering with the Go pair `(data, err)`, and the library
functions of `time` and `uuid` whose results it passes on. -/
structure Remote where
  /-- The call `service.Mask(mask).GetVirtualGuests()` on a session for
  `(user, pass, endpoint)`. -/
  getVirtualGuests : (user pass endpoint mask : String) → List Virtual_Guest × Option Err
  /-- The call `service.Mask(mask).Filter(filter.Build(fs...)).Limit(n).GetTickets()`. -/
  getTickets : (user pass endpoint mask : String) → (fs : List Filter) → (limit : Nat) →
    List Ticket × Option Err
  /-- The location of `time.LoadLocation`, `nil` when it reports an error. -/
  loadLocation : String → Option Location
  /-- The method `Time.In` for a location that is not `nil`. -/
  timeIn : Time → Location → Time
  /-- The method `Time.Format`. -/
  format : Time → String → String
  /-- The function `uuid.FromString`, error result dropped. -/
  uuidFromString : String → UUID

def resourcesMask : String :=
  "id;uuid;accountId;users.id;hourlyBillingFlag;hostname;domain;notes;tagReferences.tag.name;provisionDate;bandwidthAllocation;privateNetworkOnlyFlag;primaryIpAddress;primaryBackendIpAddress;location.pathString;startCpus;maxCpu;maxCpuUnits;maxMemory;type.name;createDate;modifyDate;status.name;powerState.name;id;id;networkVlans.id;operatingSystem.id;datacenter.id;location.id;virtualRackName;pendingMigrationFlag;dedicatedAccountHostOnlyFlag;dedicatedHost;host"

def statusesMask : String := "id;uuid;status.name;powerState.name;modifyDate"

def ticketMaskType1 : String :=
  "id;accountId;assignedUserId;group.name;subject.name;status.name;firstUpdate.editorType;firstUpdate.editorId;firstUpdate.entry;priority;title;createDate;modifyDate;lastEditDate;lastEditType;attachedVirtualGuests.id;attachedVirtualGuests.hostname;attachedVirtualGuests.domain;attachedVirtualGuests.users.id;attachedHardware;attachedResources"

/-- The collecting loop the three operations share,
`for _, d := range data { x := body(d); out = append(out, x) }`, started from
the slice `out`; it stops at the first iteration that panics. -/
def appendEach {α β : Type} (body : α → Except Panic β) :
    List α → List β → Except Panic (List β)
  | [], out => .ok out
  | d :: ds, out => do
    let x ← body d
    appendEach body ds (out ++ [x])

/-- The source's `GetResources`. -/
def GetResources (w : Remote) (user pass : String) :
    Except Panic (List HoncheonuiResource × Option Err) :=
  match w.getVirtualGuests user pass APIEndPoint resourcesMask with
  | (_, some err) => .ok ([], some err)
  | (data, none) => do
    let resources ← appendEach (guestResource w.uuidFromString) data []
    return (resources, none)

/-- The source's `GetStatuses`. -/
def GetStatuses (w : Remote) (user pass : String) :
    Except Panic (List HoncheonuiStatus × Option Err) :=
  match w.getVirtualGuests user pass APIEndPoint statusesMask with
  | (_, some err) => .ok ([], some err)
  | (data, none) => do
    let resources ← appendEach guestStatus data []
    return (resources, none)

/-- The filter `getTickets` builds for the lower bound `fromString`. -/
def ticketFilters (fromString : String) : List Filter :=
  [ ⟨"tickets.group.name", .NotContains "Sales"⟩,
    ⟨"tickets.firstUpdate.editorType", .In ["AUTO", "EMPLOYEE"]⟩,
    ⟨"tickets.createDate", .DateAfter fromString⟩ ]

/-- The answer of the remote query that `getTickets` issues for `from`. -/
def ticketQuery (w : Remote) (user pass : String) (from_ : Time) : List Ticket × Option Err :=
  w.getTickets user pass APIEndPoint ticketMaskType1
    (ticketFilters (w.format from_ "01/02/2006 15:04:05")) 100

/-- The source's `getTickets`. -/
def getTickets (w : Remote) (user pass : String) (from_ : Time) :
    Except Panic (List HoncheonuiNotification × Option Err) :=
  match ticketQuery w user pass from_ with
  | (_, some err) => .ok ([], some err)
  | (data, none) => do
    let tickets ← appendEach ticketNotification data []
    return (tickets, none)

/-- The call `from.In(loc)`: `Time.In` panics on a `nil` location. -/
def timeInLocation (w : Remote) (t : Time) : Option Location → Except Panic Time
  | some loc => .ok (w.timeIn t loc)
  | none => .error .missingLocation

/-- The source's `GetNotifications`; the error result of `time.LoadLocation`
is dropped, as in `loc, _ := ...`. -/
def GetNotifications (w : Remote) (user pass : String) (from_ : Time) :
    Except Panic (List HoncheonuiNotification × Option Err) := do
  let loc := w.loadLocation "US/Central"
  let from_ ← timeInLocation w from_ loc
  getTickets w user pass from_

/-! ## Closed form of the category, and concrete inputs -/

/-- The category string the two assignments of `getTickets` (lines 190 to 195)
leave in `ct.Category`, which starts as `""`. -/
def categoryOf (group : Option Ticket_Group) (subject : Option Ticket_Subject) : String :=
  match group, subject with
  | some g, some s => slString g.Name ++ ("/" ++ slString s.Name)
  | some g, none => slString g.Name
  | none, some s => "" ++ ("/" ++ slString s.Name)
  | none, none => ""

/-- The raw ticket of the end-to-end scenario, created at `t0` and modified at
`t1`. -/
def scenarioTicket (t0 t1 : Time) : Ticket :=
  { Id := some 42
    AccountId := some 7
    AssignedUserId := some 3
    Group := some ⟨some "Support"⟩
    Subject := none
    Status := some ⟨some "Open"⟩
    FirstUpdate := some { EditorType := some "AUTO", Entry := some "help" }
    Title := some "Issue"
    CreateDate := some t0
    ModifyDate := some t1
    AttachedResources := [⟨some 100⟩]
    AttachedVirtualGuests := [{ Users := [⟨some 9⟩] }] }

/-- The record the end-to-end scenario expects for `scenarioTicket t0 t1`. -/
def scenarioNotification (t0 t1 : Time) : HoncheonuiNotification :=
  { Provider := "softlayer"
    Type_ := "ticket"
    OriginalID := "42"
    GroupID := "7"
    UserID := "3"
    Title := "Issue"
    Content := "help"
    IssuedBy := "AUTO"
    IssuedAt := t0
    ModifiedAt := t1
    Category := "Support"
    IsOpen := true
    ResourceIDs := ["100"]
    UserIDs := ["9"] }

/-- A ticket with a group and a subject, closed, attached to two guests that
share the user `9`. -/
def closedTicket : Ticket :=
  { Id := some 5
    Group := some ⟨some "Hardware"⟩
    Subject := some ⟨some "Reboot"⟩
    Status := some ⟨some "Closed"⟩
    FirstUpdate := some { EditorType := some "EMPLOYEE", Entry := none }
    CreateDate := some ⟨10, 0⟩
    ModifyDate := some ⟨20, 0⟩
    AttachedResources := [⟨none⟩]
    AttachedVirtualGuests := [{ Users := [⟨some 9⟩, ⟨none⟩] }, { Users := [⟨some 9⟩] }] }

/-- The record `getTickets` builds for `closedTicket`. -/
def closedNotification : HoncheonuiNotification :=
  { Provider := "softlayer"
    Type_ := "ticket"
    OriginalID := "5"
    GroupID := "-1"
    UserID := "-1"
    Title := ""
    Content := ""
    IssuedBy := "EMPLOYEE"
    IssuedAt := ⟨10, 0⟩
    ModifiedAt := ⟨20, 0⟩
    Category := "Hardware/Reboot"
    IsOpen := false
    ResourceIDs := ["-1"]
    UserIDs := ["9", "-1", "9"] }

/-- The scenario's ticket with its status object absent. -/
def statuslessTicket : Ticket :=
  { scenarioTicket ⟨0, 0⟩ ⟨1, 0⟩ with Status := none }

/-- A guest with every pointer set except the identifier of its only user. -/
def guestWithAnonymousUser : Virtual_Guest :=
  { Id := some 11
    Hostname := some "web"
    Domain := some "example.org"
    CreateDate := some ⟨1, 0⟩
    ModifyDate := some ⟨2, 0⟩
    Location := some ⟨some "dal05"⟩
    Status := some ⟨some "Active"⟩
    PowerState := some ⟨some "Running"⟩
    Users := [⟨none⟩] }

/-- A guest with every pointer the resource mapping reads through set. -/
def runningGuest : Virtual_Guest :=
  { Id := some 11
    Hostname := some "web"
    Domain := some "example.org"
    CreateDate := some ⟨1, 0⟩
    ModifyDate := some ⟨2, 0⟩
    Location := some ⟨some "dal05"⟩
    Status := some ⟨some "Active"⟩
    PowerState := some ⟨some "Halted"⟩
    TagReferences := [⟨some ⟨some "prod"⟩⟩]
    Users := [⟨some 9⟩] }

/-- A remote service that answers every guest query with `guests` and every
ticket query with `tickets`, and whose library functions are trivial. -/
def constantRemote (guests : List Virtual_Guest × Option Err)
    (tickets : List Ticket × Option Err) : Remote :=
  { getVirtualGuests := fun _ _ _ _ => guests
    getTickets := fun _ _ _ _ _ _ => tickets
    loadLocation := fun name => some ⟨name⟩
    timeIn := fun t _ => t
    format := fun _ _ => ""
    uuidFromString := fun _ => UUID.Nil }

/-! ## Closed forms of the loops -/

theorem appendResourceIDs_eq (ct : HoncheonuiNotification) (rs : List Ticket_Attachment) :
    appendResourceIDs ct rs =
      { ct with
        ResourceIDs := ct.ResourceIDs ++ rs.map (fun r => Itoa (slInt r.AttachmentId)) } := by
  induction rs generalizing ct with
  | nil => simp [appendResourceIDs]
  | cons r rs ih => simp [appendResourceIDs, ih]

theorem appendGuestUserIDs_eq (ct : HoncheonuiNotification) (us : List User_Customer) :
    appendGuestUserIDs ct us =
      { ct with UserIDs := ct.UserIDs ++ us.map (fun u => Itoa (slInt u.Id)) } := by
  induction us generalizing ct with
  | nil => simp [appendGuestUserIDs]
  | cons u us ih => simp [appendGuestUserIDs, ih]

theorem appendUserIDs_eq (ct : HoncheonuiNotification) (vs : List Virtual_Guest) :
    appendUserIDs ct vs =
      { ct with
        UserIDs := ct.UserIDs ++
          (vs.map (fun vsi => vsi.Users.map (fun u => Itoa (slInt u.Id)))).flatten } := by
  induction vs generalizing ct with
  | nil => simp [appendUserIDs]
  | cons v vs ih => simp [appendUserIDs, ih, appendGuestUserIDs_eq]

/-- The record one iteration of `getTickets` builds, once the four pointers it
reads through are known. -/
theorem ticketNotification_eq (d : Ticket) (fu : Ticket_Update) (cd md : Time)
    (st : Ticket_Status) (hfu : d.FirstUpdate = some fu) (hcd : d.CreateDate = some cd)
    (hmd : d.ModifyDate = some md) (hst : d.Status = some st) :
    ticketNotification d = .ok
      { Provider := ProviderName
        Type_ := "ticket"
        OriginalID := Itoa (slInt d.Id)
        GroupID := Itoa (slInt d.AccountId)
        UserID := Itoa (slInt d.AssignedUserId)
        Title := slString d.Title
        Content := slString fu.Entry
        IssuedAt := cd
        ModifiedAt := md
        IssuedBy := slString fu.EditorType
        Category := categoryOf d.Group d.Subject
        IsOpen := decide (slString st.Name ≠ "Closed")
        ResourceIDs := d.AttachedResources.map (fun r => Itoa (slInt r.AttachmentId))
        UserIDs :=
          (d.AttachedVirtualGuests.map
            (fun vsi => vsi.Users.map (fun u => Itoa (slInt u.Id)))).flatten } := by
  unfold ticketNotification
  simp only [hfu, hcd, hmd, hst, deref, bind, Except.bind, pure, Except.pure,
    appendUserIDs_eq, appendResourceIDs_eq]
  cases hg : d.Group <;> cases hs : d.Subject <;>
    by_cases hc : slString st.Name = "Closed" <;> simp [categoryOf, hc]

/-- An iteration of `getTickets` completes exactly when the four pointers it
reads through are set. -/
theorem ticketNotification_ok_iff (d : Ticket) :
    (∃ n, ticketNotification d = .ok n) ↔
      d.FirstUpdate.isSome ∧ d.CreateDate.isSome ∧ d.ModifyDate.isSome ∧ d.Status.isSome := by
  constructor
  · rintro ⟨n, h⟩
    unfold ticketNotification at h
    cases hfu : d.FirstUpdate <;> cases hcd : d.CreateDate <;> cases hmd : d.ModifyDate <;>
      cases hst : d.Status <;>
      simp [hfu, hcd, hmd, hst, deref, bind, Except.bind] at h ⊢
  · rintro ⟨h1, h2, h3, h4⟩
    obtain ⟨fu, hfu⟩ := Option.isSome_iff_exists.mp h1
    obtain ⟨cd, hcd⟩ := Option.isSome_iff_exists.mp h2
    obtain ⟨md, hmd⟩ := Option.isSome_iff_exists.mp h3
    obtain ⟨st, hst⟩ := Option.isSome_iff_exists.mp h4
    exact ⟨_, ticketNotification_eq d fu cd md st hfu hcd hmd hst⟩

/-- The collecting loop returns `out` extended by one result per element, in
order, exactly when every iteration completes. -/
theorem appendEach_ok_iff {α β : Type} (body : α → Except Panic β) (data : List α)
    (out res : List β) :
    appendEach body data out = .ok res ↔
      ∃ xs, List.Forall₂ (fun d x => body d = .ok x) data xs ∧ res = out ++ xs := by
  induction data generalizing out with
  | nil =>
    constructor
    · intro h
      refine ⟨[], List.Forall₂.nil, ?_⟩
      simpa [appendEach] using h.symm
    · rintro ⟨xs, hxs, rfl⟩
      cases hxs
      simp [appendEach]
  | cons d ds ih =>
    constructor
    · intro h
      unfold appendEach at h
      cases hb : body d with
      | error p => simp [hb, bind, Except.bind] at h
      | ok x =>
        simp only [hb, bind, Except.bind] at h
        obtain ⟨xs, hxs, rfl⟩ := (ih (out ++ [x]) ).mp h
        exact ⟨x :: xs, List.Forall₂.cons hb hxs, by simp⟩
    · rintro ⟨xs, hxs, rfl⟩
      cases hxs with
      | cons hb htl =>
        unfold appendEach
        simp only [hb, bind, Except.bind]
        exact (ih _).mpr ⟨_, htl, by simp⟩

/-- The collecting loop completes when every iteration does. -/
theorem appendEach_ok_of_forall {α β : Type} (body : α → Except Panic β) (data : List α)
    (out : List β) (h : ∀ d ∈ data, ∃ x, body d = .ok x) :
    ∃ res, appendEach body data out = .ok res := by
  induction data generalizing out with
  | nil => exact ⟨out, rfl⟩
  | cons d ds ih =>
    obtain ⟨x, hx⟩ := h d (List.mem_cons_self d ds)
    obtain ⟨res, hres⟩ := ih (out ++ [x]) (fun d' hd' => h d' (List.mem_cons_of_mem d hd'))
    refine ⟨res, ?_⟩
    unfold appendEach
    simp only [hx, bind, Except.bind]
    exact hres

/-- The tag loop of `GetResources` touches no field but `Tags`. -/
theorem appendTags_ok (cr cr' : HoncheonuiResource) (ts : List Tag_Reference)
    (h : appendTags cr ts = .ok cr') : cr' = { cr with Tags := cr'.Tags } := by
  induction ts generalizing cr with
  | nil =>
    simp only [appendTags, Except.ok.injEq] at h
    subst h
    rfl
  | cons t ts ih =>
    unfold appendTags at h
    cases ht : t.Tag with
    | none => simp [ht, deref, bind, Except.bind] at h
    | some tag =>
      simp only [ht, deref, bind, Except.bind] at h
      have := ih _ h
      rw [this]

/-- The user loop of `GetResources` touches no field but `UserIDs`. -/
theorem appendResourceUserIDs_ok (cr cr' : HoncheonuiResource) (us : List User_Customer)
    (h : appendResourceUserIDs cr us = .ok cr') : cr' = { cr with UserIDs := cr'.UserIDs } := by
  induction us generalizing cr with
  | nil =>
    simp only [appendResourceUserIDs, Except.ok.injEq] at h
    subst h
    rfl
  | cons u us ih =>
    unfold appendResourceUserIDs at h
    cases hu : u.Id with
    | none => simp [hu, deref, bind, Except.bind] at h
    | some v =>
      simp only [hu, deref, bind, Except.bind] at h
      have := ih _ h
      rw [this]

/-- The status record of a guest whose status and power-state pointers are
set. -/
theorem guestStatus_eq (d : Virtual_Guest) (st : Virtual_Guest_Status)
    (ps : Virtual_Guest_Power_State) (hst : d.Status = some st)
    (hps : d.PowerState = some ps) :
    guestStatus d = .ok
      { OriginalID := Itoa (slInt d.Id)
        IsConn := decide (slString st.Name = "Active")
        IsOn := decide (slString ps.Name = "Running") } := by
  unfold guestStatus
  simp only [hst, hps, deref, bind, Except.bind, pure, Except.pure]
  by_cases h1 : slString st.Name = "Active" <;>
    by_cases h2 : slString ps.Name = "Running" <;> simp [h1, h2]

/-- The three fields a resource record shares with a status record. -/
theorem guestResource_shared (fromString : String → UUID) (d : Virtual_Guest)
    (r : HoncheonuiResource) (h : guestResource fromString d = .ok r) :
    ∃ st ps, d.Status = some st ∧ d.PowerState = some ps ∧
      r.OriginalID = Itoa (slInt d.Id) ∧
      r.IsConn = decide (slString st.Name = "Active") ∧
      r.IsOn = decide (slString ps.Name = "Running") := by
  unfold guestResource at h
  cases hcd : d.CreateDate <;> cases hmd : d.ModifyDate <;> cases hl : d.Location <;>
    cases hst : d.Status <;> cases hps : d.PowerState <;>
    simp only [hcd, hmd, hl, hst, hps, deref, bind, Except.bind, reduceCtorEq] at h
  rename_i cd md loc st ps
  refine ⟨st, ps, rfl, rfl, ?_⟩
  generalize hcr0 : appendTags _ d.TagReferences = e at h
  cases e with
  | error p => simp at h
  | ok cr1 =>
    simp only [pure, Except.pure] at h
    generalize hcr1 : appendResourceUserIDs cr1 d.Users = e at h
    cases e with
    | error p => simp at h
    | ok cr2 =>
      simp only [Except.ok.injEq] at h
      subst h
      have h1 := appendTags_ok _ _ _ hcr0
      have h2 := appendResourceUserIDs_ok _ _ _ hcr1
      have a1 := congrArg HoncheonuiResource.OriginalID h2
      have a2 := congrArg HoncheonuiResource.IsConn h2
      have a3 := congrArg HoncheonuiResource.IsOn h2
      have b1 := congrArg HoncheonuiResource.OriginalID h1
      have b2 := congrArg HoncheonuiResource.IsConn h1
      have b3 := congrArg HoncheonuiResource.IsOn h1
      simp only at a1 a2 a3 b1 b2 b3
      rw [a1, a2, a3, b1, b2, b3]
      by_cases c1 : slString st.Name = "Active" <;>
        by_cases c2 : slString ps.Name = "Running" <;>
        cases hu : d.Uuid <;> simp [c1, c2]

/-- Every record an iteration of `getTickets` returns is the closed form of
`ticketNotification_eq`, for the pointees of the four pointers. -/
theorem ticketNotification_inv (d : Ticket) (n : HoncheonuiNotification)
    (h : ticketNotification d = .ok n) :
    ∃ fu cd md st, d.FirstUpdate = some fu ∧ d.CreateDate = some cd ∧
      d.ModifyDate = some md ∧ d.Status = some st ∧
      n =
        { Provider := ProviderName
          Type_ := "ticket"
          OriginalID := Itoa (slInt d.Id)
          GroupID := Itoa (slInt d.AccountId)
          UserID := Itoa (slInt d.AssignedUserId)
          Title := slString d.Title
          Content := slString fu.Entry
          IssuedAt := cd
          ModifiedAt := md
          IssuedBy := slString fu.EditorType
          Category := categoryOf d.Group d.Subject
          IsOpen := decide (slString st.Name ≠ "Closed")
          ResourceIDs := d.AttachedResources.map (fun r => Itoa (slInt r.AttachmentId))
          UserIDs :=
            (d.AttachedVirtualGuests.map
              (fun vsi => vsi.Users.map (fun u => Itoa (slInt u.Id)))).flatten } := by
  obtain ⟨h1, h2, h3, h4⟩ := (ticketNotification_ok_iff d).mp ⟨n, h⟩
  obtain ⟨fu, hfu⟩ := Option.isSome_iff_exists.mp h1
  obtain ⟨cd, hcd⟩ := Option.isSome_iff_exists.mp h2
  obtain ⟨md, hmd⟩ := Option.isSome_iff_exists.mp h3
  obtain ⟨st, hst⟩ := Option.isSome_iff_exists.mp h4
  refine ⟨fu, cd, md, st, hfu, hcd, hmd, hst, ?_⟩
  rw [ticketNotification_eq d fu cd md st hfu hcd hmd hst] at h
  exact (Except.ok.inj h).symm

theorem slInt_eq_elim (i : Option Int) : Itoa (slInt i) = i.elim "-1" Itoa := by
  cases i <;> rfl

theorem slString_eq_elim (s : Option String) : slString s = s.elim "" id := by
  cases s <;> rfl

/-! ## The notification mapping -/

/-- C1: the loop body of `getTickets` maps the raw ticket of the end-to-end
scenario (id 42, account 7, assigned user 3, group "Support", no subject,
status "Open", first update by "AUTO" with entry "help", title "Issue", created
at `t0`, modified at `t1`, one attached resource 100, one attached guest with
the single user 9) to exactly the expected record, for all instants `t0` and
`t1`. -/
theorem scenario_ticket_maps_to_expected_record (t0 t1 : Time) :
    ticketNotification (scenarioTicket t0 t1) = .ok (scenarioNotification t0 t1) := by
  rfl

/-- C2: an iteration of `getTickets` returns a record exactly when the four
pointers it reads through are set, and the category of every record it returns
is `groupName + "/" + subjectName` when group and subject are both present,
`groupName` when only the group is, `"/" + subjectName` when only the subject
is, and `""` when neither is (a name that is itself absent counts as `""`). -/
theorem category_by_presence (d : Ticket) :
    ((∃ n, ticketNotification d = .ok n) ↔
      d.FirstUpdate.isSome ∧ d.CreateDate.isSome ∧ d.ModifyDate.isSome ∧ d.Status.isSome) ∧
    ∀ n, ticketNotification d = .ok n →
      n.Category =
        match d.Group, d.Subject with
        | some g, some s => slString g.Name ++ "/" ++ slString s.Name
        | some g, none => slString g.Name
        | none, some s => "/" ++ slString s.Name
        | none, none => "" := by
  refine ⟨ticketNotification_ok_iff d, fun n h => ?_⟩
  obtain ⟨fu, cd, md, st, -, -, -, -, rfl⟩ := ticketNotification_inv d n h
  cases hg : d.Group <;> cases hs : d.Subject <;>
    simp [categoryOf, String.append_assoc]

/-- C2, at a ticket with a group and a subject: the category is
"Hardware/Reboot". -/
theorem category_by_presence_witness :
    ticketNotification closedTicket = .ok closedNotification ∧
      closedNotification.Category = "Hardware" ++ "/" ++ "Reboot" :=
  ⟨by rfl, (category_by_presence closedTicket).2 closedNotification (by rfl)⟩

/-- C3: for a raw ticket whose status object is present, an iteration of
`getTickets` returns a record whenever the first update and the two timestamps
are present too, and in every record it returns `IsOpen` is false if and only
if the status name is present and is exactly "Closed"; for every other status
name, absent and empty included, `IsOpen` is true. -/
theorem isOpen_iff_not_closed (d : Ticket) (st : Ticket_Status) (hst : d.Status = some st) :
    (d.FirstUpdate.isSome → d.CreateDate.isSome → d.ModifyDate.isSome →
      ∃ n, ticketNotification d = .ok n) ∧
    ∀ n, ticketNotification d = .ok n →
      (n.IsOpen = false ↔ st.Name = some "Closed") ∧
      (n.IsOpen = true ↔ st.Name ≠ some "Closed") := by
  constructor
  · intro h1 h2 h3
    exact (ticketNotification_ok_iff d).mpr ⟨h1, h2, h3, by simp [hst]⟩
  · intro n h
    obtain ⟨fu, cd, md, st', -, -, -, hst', rfl⟩ := ticketNotification_inv d n h
    rw [hst] at hst'
    cases hst'
    cases hn : st.Name <;> simp [slString]

/-- C3, at a closed ticket and at the scenario's open one. -/
theorem isOpen_iff_not_closed_witness :
    closedTicket.Status = some ⟨some "Closed"⟩ ∧
      (closedNotification.IsOpen = false ↔
        (⟨some "Closed"⟩ : Ticket_Status).Name = some "Closed") :=
  ⟨rfl, ((isOpen_iff_not_closed closedTicket ⟨some "Closed"⟩ rfl).2
    closedNotification (by rfl)).1⟩

/-- C4, as stated, fails in its last clause: `slInt` returns `-1` for the
present integer `-1` as well, and `slString` returns `""` for the present empty
string as well, so neither sentinel is returned for absent inputs only. -/
theorem sentinel_not_only_for_absent :
    (slInt (some (-1)) = -1 ∧ slString (some "") = "") ∧
      ¬ (∀ i : Option Int, slInt i = -1 ↔ i = none) ∧
      ¬ (∀ s : Option String, slString s = "" ↔ s = none) := by
  refine ⟨⟨rfl, rfl⟩, ?_, ?_⟩
  · intro h
    have := (h (some (-1))).mp rfl
    cases this
  · intro h
    have := (h (some "")).mp rfl
    cases this

/-- C4, amended: in every record an iteration of `getTickets` returns, each
optional integer source field (id, accountId, assignedUserId, the attachmentId
of every attached resource, the id of every user of every attached guest) is
the decimal string of its value when present and "-1" when absent, and each
optional string source field (title, first-update entry, first-update editor
type) is its value when present and `""` when absent; `slInt` returns `-1` for
an absent integer and the value of a present one, `slString` returns `""` for an
absent string and the value of a present one. -/
theorem optional_fields_substituted (d : Ticket) (n : HoncheonuiNotification)
    (h : ticketNotification d = .ok n) :
    n.OriginalID = d.Id.elim "-1" Itoa ∧
    n.GroupID = d.AccountId.elim "-1" Itoa ∧
    n.UserID = d.AssignedUserId.elim "-1" Itoa ∧
    n.ResourceIDs = d.AttachedResources.map (fun r => r.AttachmentId.elim "-1" Itoa) ∧
    n.UserIDs =
      (d.AttachedVirtualGuests.map
        (fun vsi => vsi.Users.map (fun u => u.Id.elim "-1" Itoa))).flatten ∧
    n.Title = d.Title.elim "" id ∧
    (∃ fu, d.FirstUpdate = some fu ∧ n.Content = fu.Entry.elim "" id ∧
      n.IssuedBy = fu.EditorType.elim "" id) ∧
    slInt none = -1 ∧ (∀ v, slInt (some v) = v) ∧
    slString none = "" ∧ (∀ v, slString (some v) = v) := by
  obtain ⟨fu, cd, md, st, hfu, -, -, -, rfl⟩ := ticketNotification_inv d n h
  refine ⟨slInt_eq_elim _, slInt_eq_elim _, slInt_eq_elim _, ?_, ?_, slString_eq_elim _,
    ⟨fu, hfu, slString_eq_elim _, slString_eq_elim _⟩, rfl, fun _ => rfl, rfl, fun _ => rfl⟩
  · simp only [slInt_eq_elim]
  · simp only [slInt_eq_elim]

/-- C4 amended, at a ticket whose account, assigned user, title, first-update
entry, attachment identifier and one guest user identifier are absent. -/
theorem optional_fields_substituted_witness :
    ticketNotification closedTicket = .ok closedNotification ∧
      closedNotification.GroupID = (none : Option Int).elim "-1" Itoa ∧
      closedNotification.ResourceIDs =
        closedTicket.AttachedResources.map (fun r => r.AttachmentId.elim "-1" Itoa) :=
  ⟨by rfl,
    (optional_fields_substituted closedTicket closedNotification (by rfl)).2.1,
    (optional_fields_substituted closedTicket closedNotification (by rfl)).2.2.2.1⟩

/-- C5: in every record an iteration of `getTickets` returns (it returns one
exactly when the four pointers it reads through are set), `UserIDs` is the
concatenation, guest after guest and user after user within a guest, of the
string-encoded user identifiers of the attached guests; its length is the sum
of the guests' user counts, and a string occurs in it as often as it occurs
under all the guests together, so an identifier under two guests is there
twice. -/
theorem userIDs_concatenation (d : Ticket) :
    ((∃ n, ticketNotification d = .ok n) ↔
      d.FirstUpdate.isSome ∧ d.CreateDate.isSome ∧ d.ModifyDate.isSome ∧ d.Status.isSome) ∧
    ∀ n, ticketNotification d = .ok n →
      n.UserIDs =
        (d.AttachedVirtualGuests.map
          (fun vsi => vsi.Users.map (fun u => Itoa (slInt u.Id)))).flatten ∧
      n.UserIDs.length = (d.AttachedVirtualGuests.map (fun vsi => vsi.Users.length)).sum ∧
      ∀ id : String, n.UserIDs.count id =
        (d.AttachedVirtualGuests.map
          (fun vsi => (vsi.Users.map (fun u => Itoa (slInt u.Id))).count id)).sum := by
  refine ⟨ticketNotification_ok_iff d, fun n h => ?_⟩
  obtain ⟨fu, cd, md, st, -, -, -, -, rfl⟩ := ticketNotification_inv d n h
  refine ⟨rfl, ?_, fun id => ?_⟩
  · simp [List.length_flatten, Function.comp_def]
  · simp [List.count_flatten, Function.comp_def]

/-- C5, at a ticket whose two guests share the user 9: the identifiers come
out as "9", "-1", "9". -/
theorem userIDs_concatenation_witness :
    ticketNotification closedTicket = .ok closedNotification ∧
      closedNotification.UserIDs =
        (closedTicket.AttachedVirtualGuests.map
          (fun vsi => vsi.Users.map (fun u => Itoa (slInt u.Id)))).flatten ∧
      closedNotification.UserIDs = ["9", "-1", "9"] :=
  ⟨by rfl, ((userIDs_concatenation closedTicket).2 closedNotification (by rfl)).1, rfl⟩

/-! ## The operations -/

/-- What `getTickets` returns after a query without error: the pair of the
collected records and the `nil` error, or the panic of the loop. -/
theorem getTickets_of_success (w : Remote) (user pass : String) (from_ : Time)
    (data : List Ticket) (hq : ticketQuery w user pass from_ = (data, none)) :
    getTickets w user pass from_ =
      (appendEach ticketNotification data []).map (fun tickets => (tickets, none)) := by
  unfold getTickets
  rw [hq]
  cases hr : appendEach ticketNotification data [] <;>
    simp [hr, bind, Except.bind, Except.map, pure, Except.pure]

/-- C6: after a successful query, `getTickets` returns the sequence `out`
exactly when `out` lists, ticket by ticket and in order, the records of the
loop body (so `out` is as long as the answer and its i-th element is the
notification of the i-th ticket alone); it does return when every ticket has
its first update, timestamps and status, as on the two-ticket answer of the
second conjunct.  The claim promises a result for every answer, and on the
one-ticket answer `[statuslessTicket]` the operation panics instead. -/
theorem getTickets_elementwise_unless_panic :
    (∀ (w : Remote) (user pass : String) (from_ : Time) (data : List Ticket),
      ticketQuery w user pass from_ = (data, none) →
        (∀ out, getTickets w user pass from_ = .ok (out, none) ↔
          List.Forall₂ (fun d n => ticketNotification d = .ok n) data out) ∧
        ((∀ d ∈ data, d.FirstUpdate.isSome ∧ d.CreateDate.isSome ∧ d.ModifyDate.isSome ∧
            d.Status.isSome) →
          ∃ out, getTickets w user pass from_ = .ok (out, none))) ∧
    getTickets (constantRemote ([], none) ([scenarioTicket ⟨0, 0⟩ ⟨1, 0⟩, closedTicket], none))
        "user" "key" ⟨0, 0⟩ =
      .ok ([scenarioNotification ⟨0, 0⟩ ⟨1, 0⟩, closedNotification], none) ∧
    getTickets (constantRemote ([], none) ([statuslessTicket], none)) "user" "key" ⟨0, 0⟩ =
      .error .nilPointerDereference := by
  refine ⟨fun w user pass from_ data hq => ⟨fun out => ?_, fun hall => ?_⟩, by rfl, by rfl⟩
  · rw [getTickets_of_success w user pass from_ data hq]
    constructor
    · intro h
      cases hr : appendEach ticketNotification data [] with
      | error p => simp [hr, Except.map] at h
      | ok res =>
        simp only [hr, Except.map, Except.ok.injEq, Prod.mk.injEq, and_true] at h
        subst h
        obtain ⟨xs, hxs, rfl⟩ := (appendEach_ok_iff _ _ _ _).mp hr
        simpa using hxs
    · intro h
      have := (appendEach_ok_iff ticketNotification data [] out).mpr ⟨out, h, by simp⟩
      simp [this, Except.map]
  · obtain ⟨res, hres⟩ := appendEach_ok_of_forall ticketNotification data []
      (fun d hd => (ticketNotification_ok_iff d).mpr (hall d hd))
    exact ⟨res, by rw [getTickets_of_success w user pass from_ data hq, hres]; rfl⟩

/-- C7: each of `GetResources`, `GetStatuses` and `GetNotifications` answers a
failed query with that error and the empty result, whatever data came with the
error; after a successful query none of them returns an error, and each returns
the `nil` error when every iteration of its loop completes.  For
`GetNotifications` the query is issued once "US/Central" has been loaded. -/
theorem query_error_propagates (w : Remote) (user pass : String) (from_ : Time) :
    (∀ data e, w.getVirtualGuests user pass APIEndPoint resourcesMask = (data, some e) →
      GetResources w user pass = .ok ([], some e)) ∧
    (∀ data e, w.getVirtualGuests user pass APIEndPoint statusesMask = (data, some e) →
      GetStatuses w user pass = .ok ([], some e)) ∧
    (∀ loc data e, w.loadLocation "US/Central" = some loc →
      ticketQuery w user pass (w.timeIn from_ loc) = (data, some e) →
      GetNotifications w user pass from_ = .ok ([], some e)) ∧
    (∀ data, w.getVirtualGuests user pass APIEndPoint resourcesMask = (data, none) →
      (∀ r e, GetResources w user pass = .ok (r, e) → e = none) ∧
      ((∀ d ∈ data, ∃ x, guestResource w.uuidFromString d = .ok x) →
        ∃ r, GetResources w user pass = .ok (r, none))) ∧
    (∀ data, w.getVirtualGuests user pass APIEndPoint statusesMask = (data, none) →
      (∀ r e, GetStatuses w user pass = .ok (r, e) → e = none) ∧
      ((∀ d ∈ data, ∃ x, guestStatus d = .ok x) →
        ∃ r, GetStatuses w user pass = .ok (r, none))) ∧
    (∀ loc data, w.loadLocation "US/Central" = some loc →
      ticketQuery w user pass (w.timeIn from_ loc) = (data, none) →
      (∀ r e, GetNotifications w user pass from_ = .ok (r, e) → e = none) ∧
      ((∀ d ∈ data, ∃ x, ticketNotification d = .ok x) →
        ∃ r, GetNotifications w user pass from_ = .ok (r, none))) := by
  refine ⟨?_, ?_, ?_, ?_, ?_, ?_⟩
  · intro data e hq
    simp [GetResources, hq]
  · intro data e hq
    simp [GetStatuses, hq]
  · intro loc data e hloc hq
    simp [GetNotifications, hloc, timeInLocation, getTickets, hq, bind, Except.bind]
  · intro data hq
    constructor
    · intro r e h
      unfold GetResources at h
      rw [hq] at h
      cases hr : appendEach (guestResource w.uuidFromString) data [] with
      | error p => simp [hr, bind, Except.bind] at h
      | ok res =>
        simp only [hr, bind, Except.bind, pure, Except.pure, Except.ok.injEq,
          Prod.mk.injEq] at h
        exact h.2.symm
    · intro hall
      obtain ⟨res, hres⟩ := appendEach_ok_of_forall _ data [] hall
      exact ⟨res, by simp [GetResources, hq, hres, bind, Except.bind, pure, Except.pure]⟩
  · intro data hq
    constructor
    · intro r e h
      unfold GetStatuses at h
      rw [hq] at h
      cases hr : appendEach guestStatus data [] with
      | error p => simp [hr, bind, Except.bind] at h
      | ok res =>
        simp only [hr, bind, Except.bind, pure, Except.pure, Except.ok.injEq,
          Prod.mk.injEq] at h
        exact h.2.symm
    · intro hall
      obtain ⟨res, hres⟩ := appendEach_ok_of_forall _ data [] hall
      exact ⟨res, by simp [GetStatuses, hq, hres, bind, Except.bind, pure, Except.pure]⟩
  · intro loc data hloc hq
    have hG : GetNotifications w user pass from_ = getTickets w user pass (w.timeIn from_ loc) := by
      simp [GetNotifications, hloc, timeInLocation, bind, Except.bind]
    rw [hG, getTickets_of_success w user pass _ data hq]
    constructor
    · intro r e h
      cases hr : appendEach ticketNotification data [] with
      | error p => simp [hr, Except.map] at h
      | ok res =>
        simp only [hr, Except.map, Except.ok.injEq, Prod.mk.injEq] at h
        exact h.2.symm
    · intro hall
      obtain ⟨res, hres⟩ := appendEach_ok_of_forall _ data [] hall
      exact ⟨res, by simp [hres, Except.map]⟩

/-- C7, at a remote service whose guest query fails with "timeout" while
handing back one guest, and at one whose queries succeed. -/
theorem query_error_propagates_witness :
    GetResources (constantRemote ([runningGuest], some ⟨"timeout"⟩) ([], none)) "user" "key" =
        .ok ([], some ⟨"timeout"⟩) ∧
      GetNotifications (constantRemote ([], none) ([closedTicket], some ⟨"timeout"⟩))
        "user" "key" ⟨0, 0⟩ = .ok ([], some ⟨"timeout"⟩) ∧
      GetStatuses (constantRemote ([runningGuest], none) ([], none)) "user" "key" =
        .ok ([{ OriginalID := "11", IsConn := true, IsOn := false }], none) :=
  ⟨(query_error_propagates (constantRemote ([runningGuest], some ⟨"timeout"⟩) ([], none))
      "user" "key" ⟨0, 0⟩).1 [runningGuest] ⟨"timeout"⟩ rfl,
    (query_error_propagates (constantRemote ([], none) ([closedTicket], some ⟨"timeout"⟩))
      "user" "key" ⟨0, 0⟩).2.2.1 ⟨"US/Central"⟩ [closedTicket] ⟨"timeout"⟩ rfl rfl,
    by rfl⟩

/-! ## Absent objects and identifiers -/

/-- C8: an iteration of `getTickets` panics on every raw ticket whose status
object, first-update object, creation timestamp or modification timestamp is
absent, for instance on the scenario's ticket with any one of the four removed;
the claim says it produces a record there.  An absent group is guarded in the
same loop body and yields the category `""`. -/
theorem absent_object_panics :
    (∀ d : Ticket,
      d.Status = none ∨ d.FirstUpdate = none ∨ d.CreateDate = none ∨ d.ModifyDate = none →
        ticketNotification d = .error .nilPointerDereference) ∧
    ticketNotification statuslessTicket = .error .nilPointerDereference ∧
    ticketNotification { scenarioTicket ⟨0, 0⟩ ⟨1, 0⟩ with FirstUpdate := none } =
      .error .nilPointerDereference ∧
    ticketNotification { scenarioTicket ⟨0, 0⟩ ⟨1, 0⟩ with CreateDate := none } =
      .error .nilPointerDereference ∧
    ticketNotification { scenarioTicket ⟨0, 0⟩ ⟨1, 0⟩ with ModifyDate := none } =
      .error .nilPointerDereference ∧
    ticketNotification { scenarioTicket ⟨0, 0⟩ ⟨1, 0⟩ with Group := none } =
      .ok { scenarioNotification ⟨0, 0⟩ ⟨1, 0⟩ with Category := "" } := by
  refine ⟨fun d h => ?_, by rfl, by rfl, by rfl, by rfl, by rfl⟩
  unfold ticketNotification
  cases hfu : d.FirstUpdate <;> cases hcd : d.CreateDate <;> cases hmd : d.ModifyDate <;>
    cases hst : d.Status <;>
    simp_all [deref, bind, Except.bind]

/-- C9: `GetResources` reads a guest user's identifier as `*u.Id`, so on a
guest whose only user has no identifier its loop body, and with it the whole
operation, panics; the claim says the user contributes "-1", which is what the
loop of `getTickets` over the same users produces through `slInt`. -/
theorem absent_user_id_panics_in_GetResources (fromString : String → UUID) :
    guestResource fromString guestWithAnonymousUser = .error .nilPointerDereference ∧
    GetResources (constantRemote ([guestWithAnonymousUser], none) ([], none)) "user" "key" =
      .error .nilPointerDereference ∧
    (appendGuestUserIDs {} guestWithAnonymousUser.Users).UserIDs = ["-1"] :=
  ⟨by rfl, by rfl, by rfl⟩

/-- The tag loop of `GetResources` completes when every tag pointer is set. -/
theorem appendTags_total (cr : HoncheonuiResource) (ts : List Tag_Reference)
    (h : ∀ t ∈ ts, t.Tag.isSome) : ∃ cr', appendTags cr ts = .ok cr' := by
  induction ts generalizing cr with
  | nil => exact ⟨cr, rfl⟩
  | cons t ts ih =>
    obtain ⟨tag, ht⟩ := Option.isSome_iff_exists.mp (h t (List.mem_cons_self t ts))
    obtain ⟨cr', hcr'⟩ := ih { cr with Tags := cr.Tags ++ [slString tag.Name] }
      (fun t' ht' => h t' (List.mem_cons_of_mem t ht'))
    refine ⟨cr', ?_⟩
    unfold appendTags
    simp only [ht, deref, bind, Except.bind]
    exact hcr'

/-- The user loop of `GetResources` completes when every identifier is set. -/
theorem appendResourceUserIDs_total (cr : HoncheonuiResource) (us : List User_Customer)
    (h : ∀ u ∈ us, u.Id.isSome) : ∃ cr', appendResourceUserIDs cr us = .ok cr' := by
  induction us generalizing cr with
  | nil => exact ⟨cr, rfl⟩
  | cons u us ih =>
    obtain ⟨v, hv⟩ := Option.isSome_iff_exists.mp (h u (List.mem_cons_self u us))
    obtain ⟨cr', hcr'⟩ := ih { cr with UserIDs := cr.UserIDs ++ [Itoa v] }
      (fun u' hu' => h u' (List.mem_cons_of_mem u hu'))
    refine ⟨cr', ?_⟩
    unfold appendResourceUserIDs
    simp only [hv, deref, bind, Except.bind]
    exact hcr'

/-- An iteration of `GetResources` completes when every pointer it reads
through is set. -/
theorem guestResource_total (fromString : String → UUID) (d : Virtual_Guest)
    (hcd : d.CreateDate.isSome) (hmd : d.ModifyDate.isSome) (hl : d.Location.isSome)
    (hst : d.Status.isSome) (hps : d.PowerState.isSome)
    (htags : ∀ t ∈ d.TagReferences, t.Tag.isSome) (husers : ∀ u ∈ d.Users, u.Id.isSome) :
    ∃ r, guestResource fromString d = .ok r := by
  obtain ⟨cd, hcd⟩ := Option.isSome_iff_exists.mp hcd
  obtain ⟨md, hmd⟩ := Option.isSome_iff_exists.mp hmd
  obtain ⟨loc, hl⟩ := Option.isSome_iff_exists.mp hl
  obtain ⟨st, hst⟩ := Option.isSome_iff_exists.mp hst
  obtain ⟨ps, hps⟩ := Option.isSome_iff_exists.mp hps
  unfold guestResource
  simp only [hcd, hmd, hl, hst, hps, deref, bind, Except.bind, pure, Except.pure]
  obtain ⟨cr1, h1⟩ := appendTags_total _ d.TagReferences htags
  rw [h1]
  obtain ⟨cr2, h2⟩ := appendResourceUserIDs_total cr1 d.Users husers
  exact ⟨cr2, by simp only [h2]⟩

/-- C10: for a guest whose status and power-state objects are present,
`GetStatuses` builds a status record whose `OriginalID` is the string-encoded
id ("-1" when absent), whose `IsConn` is true if and only if the status name is
exactly "Active" and whose `IsOn` is true if and only if the power-state name is
exactly "Running"; every resource record `GetResources` builds for the same
guest has the same three fields, and it builds one when the timestamps, the
location, every tag and every user identifier are present. -/
theorem status_and_resource_agree (fromString : String → UUID) (d : Virtual_Guest)
    (st : Virtual_Guest_Status) (ps : Virtual_Guest_Power_State)
    (hst : d.Status = some st) (hps : d.PowerState = some ps) :
    ∃ s, guestStatus d = .ok s ∧
      s.OriginalID = d.Id.elim "-1" Itoa ∧
      (s.IsConn = true ↔ st.Name = some "Active") ∧
      (s.IsOn = true ↔ ps.Name = some "Running") ∧
      (∀ r, guestResource fromString d = .ok r →
        r.OriginalID = s.OriginalID ∧ r.IsConn = s.IsConn ∧ r.IsOn = s.IsOn) ∧
      (d.CreateDate.isSome → d.ModifyDate.isSome → d.Location.isSome →
        (∀ t ∈ d.TagReferences, t.Tag.isSome) → (∀ u ∈ d.Users, u.Id.isSome) →
        ∃ r, guestResource fromString d = .ok r) := by
  refine ⟨_, guestStatus_eq d st ps hst hps, slInt_eq_elim _, ?_, ?_, ?_, ?_⟩
  · cases hn : st.Name <;> simp [slString]
  · cases hn : ps.Name <;> simp [slString]
  · intro r hr
    obtain ⟨st', ps', hst', hps', h1, h2, h3⟩ := guestResource_shared fromString d r hr
    rw [hst] at hst'
    rw [hps] at hps'
    cases hst'
    cases hps'
    exact ⟨h1, h2, h3⟩
  · intro hcd hmd hl htags husers
    exact guestResource_total fromString d hcd hmd hl (by simp [hst]) (by simp [hps])
      htags husers

/-- C10, at a guest that is "Active" and "Halted": both records carry the id
"11", are connected and are not on. -/
theorem status_and_resource_agree_witness :
    runningGuest.Status = some ⟨some "Active"⟩ ∧
      runningGuest.PowerState = some ⟨some "Halted"⟩ ∧
      guestStatus runningGuest = .ok { OriginalID := "11", IsConn := true, IsOn := false } ∧
      ∃ s, guestStatus runningGuest = .ok s ∧
        ∃ r, guestResource (fun _ => UUID.Nil) runningGuest = .ok r ∧
          r.OriginalID = s.OriginalID ∧ r.IsConn = s.IsConn ∧ r.IsOn = s.IsOn := by
  obtain ⟨s, hs, -, -, -, hagree, htotal⟩ :=
    status_and_resource_agree (fun _ => UUID.Nil) runningGuest ⟨some "Active"⟩
      ⟨some "Halted"⟩ rfl rfl
  obtain ⟨r, hr⟩ := htotal rfl rfl rfl (by decide) (by decide)
  exact ⟨rfl, rfl, by rfl, s, hs, r, hr, hagree r hr⟩

end Softlayer
